import Mathlib

/-!
Verification development for the CNSync browser extension (Canvas → Notion
sync).  The definitions below are a shallow embedding of the JavaScript in
`src/background.js` and `src/content.js`: pure functions become Lean
functions, the stateful sync orchestrator becomes a function from explicit
inputs (clock, persisted storage, destination query results, a per-item
failure oracle) to an output record carrying the returned value, the issued
destination calls and the new persisted state.  JavaScript objects used as
string-keyed maps are embedded as functions `String → Option α`; JS
falsiness of the empty string is modelled explicitly where the source relies
on it (`x || null`, `if (str)`).
-/

namespace CNSync

/-- Model of the JavaScript idiom `s || null` applied to a nullable string:
`null`/`undefined` stay `none`, and the empty string (falsy) is also turned
into `none`. -/
def jsOrNull (s : Option String) : Option String :=
  match s with
  | some s => if s = "" then none else some s
  | none => none

/-- Model of the JavaScript idiom `s || dflt` on a string: the empty string is
falsy and is replaced by the default. -/
def jsOr (s : String) (dflt : String) : String :=
  if s = "" then dflt else s

/-- Functional update of a string-keyed map, modelling `obj[k] = v` /
`map.set(k, v)` on a JavaScript object or `Map`. -/
def setKey {α : Type} (m : String → Option α) (k : String) (v : α) :
    String → Option α :=
  fun k' => if k' = k then some v else m k'

/-- The everywhere-undefined string-keyed map (the JavaScript object `{}` or
an empty `Map`). -/
def emptyStrMap {α : Type} : String → Option α := fun _ => none

/-- Containment of one character list inside another, scanning positions left
to right. -/
def charsInfix (pattern : List Char) : List Char → Bool
  | [] => decide (pattern = [])
  | c :: tl => pattern.isPrefixOf (c :: tl) || charsInfix pattern tl

/-- Model of JavaScript `String.prototype.includes`: substring containment. -/
def strIncludes (s pattern : String) : Bool :=
  charsInfix pattern.toList s.toList

-- ---------------------------------------------------------------------------
-- Canonical data model (the shape produced by the source collectors in
-- content.js `syncAssignments` and background.js `syncFromBackground`)
-- ---------------------------------------------------------------------------

/-- A normalized submission record, as produced by `mapSubmission` /
`mapSubmissionBackground` (`{ status, submitted_at }`). -/
structure Submission where
  status : String
  submitted_at : Option String
deriving DecidableEq, Repr

/-- A normalized assignment record as staged by the collectors.
`submission_types` is carried because `inferType` reads
`assignment.submission_types || []`; the collectors do not set it (it is
`undefined`, embedded as `[]`). -/
structure Assignment where
  canvas_assignment_id : String
  name : String
  due_at : Option String
  points_possible : Int
  html_url : Option String
  submission : Option Submission
  submission_types : List String
deriving DecidableEq, Repr

/-- A normalized course record with its staged assignments. -/
structure Course where
  canvas_course_id : String
  name : String
  course_code : String
  assignments : List Assignment
deriving DecidableEq, Repr

/-- The inbound sync payload (`syncData`). -/
structure SyncData where
  institution_domain : String
  canvas_user_id : Option String
  courses : List Course
deriving DecidableEq, Repr

/-- The fingerprint of an assignment: the five sync-relevant fields
(background.js `buildFingerprint`). -/
structure Fingerprint where
  name : String
  due_at : Option String
  points_possible : Int
  status : String
  html_url : Option String
deriving DecidableEq, Repr

/-- The persisted sync cache: composite identity key → last-synced
fingerprint (a JavaScript object keyed by `canvasId`). -/
def SyncCache : Type := String → Option Fingerprint

/-- The empty sync cache (`{}`). -/
def emptySyncCache : SyncCache := fun _ => none

/-- background.js `buildFingerprint`: project an assignment onto its five
sync-relevant fields, with the JS defaults `due_at || null`,
`points_possible || 0` (identity on the embedded integers),
`submission?.status || "unsubmitted"`, `html_url || null`. -/
def buildFingerprint (assignment : Assignment) : Fingerprint :=
  { name := assignment.name
    due_at := jsOrNull assignment.due_at
    points_possible := assignment.points_possible
    status :=
      match assignment.submission with
      | some sub => jsOr sub.status "unsubmitted"
      | none => "unsubmitted"
    html_url := jsOrNull assignment.html_url }

/-- background.js `fingerprintChanged`: field-by-field strict inequality. -/
def fingerprintChanged (fresh cached : Fingerprint) : Bool :=
  decide (fresh.name ≠ cached.name) ||
  decide (fresh.due_at ≠ cached.due_at) ||
  decide (fresh.points_possible ≠ cached.points_possible) ||
  decide (fresh.status ≠ cached.status) ||
  decide (fresh.html_url ≠ cached.html_url)

/-- The composite identity key `` `${course.canvas_course_id}:${assignment.canvas_assignment_id}` ``. -/
def mkCanvasId (course : Course) (assignment : Assignment) : String :=
  course.canvas_course_id ++ ":" ++ assignment.canvas_assignment_id

/-- One element pushed by `diffAssignments`:
`{ course, assignment, canvasId }`. -/
structure DiffItem where
  course : Course
  assignment : Assignment
  canvasId : String
deriving DecidableEq, Repr

/-- The result of `diffAssignments`: `{ toCreate, toUpdate, unchanged }`. -/
structure DiffResult where
  toCreate : List DiffItem
  toUpdate : List DiffItem
  unchanged : List String
deriving DecidableEq, Repr

/-- The sequence of `{ course, assignment, canvasId }` triples visited by the
two nested `for` loops of `diffAssignments` / `buildSyncCache`, in source
order. -/
def diffItems (syncData : SyncData) : List DiffItem :=
  syncData.courses.flatMap (fun course =>
    course.assignments.map (fun assignment =>
      { course := course, assignment := assignment
        canvasId := mkCanvasId course assignment }))

/-- The body of the inner loop of `diffAssignments`: push the item on the
bucket selected by the cache lookup and the fingerprint comparison. -/
def diffStep (cache : SyncCache) (acc : DiffResult) (item : DiffItem) :
    DiffResult :=
  match cache item.canvasId with
  | none => { acc with toCreate := acc.toCreate ++ [item] }
  | some cached =>
    if fingerprintChanged (buildFingerprint item.assignment) cached then
      { acc with toUpdate := acc.toUpdate ++ [item] }
    else
      { acc with unchanged := acc.unchanged ++ [item.canvasId] }

/-- background.js `diffAssignments`. -/
def diffAssignments (syncData : SyncData) (cache : SyncCache) : DiffResult :=
  (diffItems syncData).foldl (diffStep cache)
    { toCreate := [], toUpdate := [], unchanged := [] }

/-- The body of the inner loop of `buildSyncCache`:
`cache[canvasId] = buildFingerprint(assignment)`. -/
def cacheStep (acc : SyncCache) (item : DiffItem) : SyncCache :=
  setKey acc item.canvasId (buildFingerprint item.assignment)

/-- background.js `buildSyncCache`. -/
def buildSyncCache (syncData : SyncData) : SyncCache :=
  (diffItems syncData).foldl cacheStep emptySyncCache

-- ---------------------------------------------------------------------------
-- Classification predicates (used to characterize diffAssignments)
-- ---------------------------------------------------------------------------

/-- An item whose identity key is absent from the cache. -/
def isNewForCache (cache : SyncCache) (item : DiffItem) : Bool :=
  (cache item.canvasId).isNone

/-- An item whose identity key is cached with a different fingerprint. -/
def isChangedForCache (cache : SyncCache) (item : DiffItem) : Bool :=
  match cache item.canvasId with
  | some cached => fingerprintChanged (buildFingerprint item.assignment) cached
  | none => false

/-- An item whose identity key is cached with an identical fingerprint. -/
def isUnchangedForCache (cache : SyncCache) (item : DiffItem) : Bool :=
  match cache item.canvasId with
  | some cached =>
    !(fingerprintChanged (buildFingerprint item.assignment) cached)
  | none => false

-- ---------------------------------------------------------------------------
-- Destination (Notion) pages and the per-run indexes built from them
-- ---------------------------------------------------------------------------

/-- A destination document returned by `client.queryAllPages`:
`canvasIdText` stands for
`page.properties["Canvas ID"].rich_text[0].plain_text` (absent levels of the
optional chain collapse to `none`). -/
structure NotionPage where
  id : String
  canvasIdText : Option String
deriving DecidableEq, Repr

/-- A destination document of the Courses database returned by
`client.queryCoursesDatabase`: `canvasCourseIdText` stands for
`page.properties["Canvas Course ID"].rich_text[0].plain_text`; `name` is the
user-visible title, which the resolver never reads. -/
structure CoursePage where
  id : String
  name : String
  canvasCourseIdText : Option String
deriving DecidableEq, Repr

/-- Step 3 of `handleNotionSync`: build `canvasIdToPageId` from the live
destination listing, skipping pages whose Canvas ID text is absent or empty
(the JS truthiness guard `if (canvasIdProp?.rich_text?.[0]?.plain_text)`).
`Map.set` lets a later page override an earlier one. -/
def pageIndexStep (m : String → Option String) (page : NotionPage) :
    String → Option String :=
  match page.canvasIdText with
  | some t => if t = "" then m else setKey m t page.id
  | none => m

/-- Step 3 of `handleNotionSync`, continued: fold the truthiness-guarded
`Map.set` over the listed pages. -/
def pageIndex (pages : List NotionPage) : String → Option String :=
  pages.foldl pageIndexStep emptyStrMap

/-- The `notionCourseMap` of `ensureCoursePages`: Canvas Course ID →
destination page id, built from the live Courses listing with the same
truthiness guard. -/
def coursePageIndexStep (m : String → Option String) (page : CoursePage) :
    String → Option String :=
  match page.canvasCourseIdText with
  | some t => if t = "" then m else setKey m t page.id
  | none => m

/-- The `notionCourseMap` fold of `ensureCoursePages`. -/
def coursePageIndex (pages : List CoursePage) : String → Option String :=
  pages.foldl coursePageIndexStep emptyStrMap

/-- An issued `client.createCoursePage(coursesDatabaseId, name,
canvasCourseId)` call, together with the id of the page the destination
returned for it. -/
structure CourseCreate where
  coursesDatabaseId : String
  name : String
  canvasCourseId : String
  newPageId : String
deriving DecidableEq, Repr

/-- The outcome of `ensureCoursePages`: the returned `resultMap`, the course
pages created this run, and the merged `coursePageCache` written back to
storage. -/
structure EnsureResult where
  resultMap : String → Option String
  creates : List CourseCreate
  coursePageCache : String → Option String

/-- The body of the `for (const course of courses)` loop of
`ensureCoursePages`: reuse the destination page when the Canvas Course ID is
already present, otherwise create one with the canonical name; either way
record the mapping in `resultMap` and `coursePageCache`. -/
def ensureStep (coursesDatabaseId : String)
    (notionCourseMap : String → Option String) (newPageId : String → String)
    (acc : EnsureResult) (course : Course) : EnsureResult :=
  let canvasCourseId := course.canvas_course_id
  match notionCourseMap canvasCourseId with
  | some existingPageId =>
    { resultMap := setKey acc.resultMap canvasCourseId existingPageId
      creates := acc.creates
      coursePageCache := setKey acc.coursePageCache canvasCourseId existingPageId }
  | none =>
    let nid := newPageId canvasCourseId
    { resultMap := setKey acc.resultMap canvasCourseId nid
      creates := acc.creates ++
        [{ coursesDatabaseId := coursesDatabaseId, name := course.name
           canvasCourseId := canvasCourseId, newPageId := nid }]
      coursePageCache := setKey acc.coursePageCache canvasCourseId nid }

/-- background.js `ensureCoursePages`.  `existingPages` is the result of
`client.queryCoursesDatabase`, `newPageId` the oracle giving the id the
destination assigns to a freshly created course page, `cache0` the stored
`coursePageCache` (defaulting to `{}`). -/
def ensureCoursePages (coursesDatabaseId : String)
    (existingPages : List CoursePage) (courses : List Course)
    (newPageId : String → String) (cache0 : String → Option String) :
    EnsureResult :=
  courses.foldl
    (ensureStep coursesDatabaseId (coursePageIndex existingPages) newPageId)
    { resultMap := emptyStrMap, creates := [], coursePageCache := cache0 }

-- ---------------------------------------------------------------------------
-- Property building (background.js `inferType`, `SUBMISSION_STATUS_MAP`,
-- `buildNotionProperties`)
-- ---------------------------------------------------------------------------

/-- background.js `inferType`: the ordered keyword if/else chain over the
lowercased name (and over `submission_types` for the discussion rule). -/
def inferType (assignment : Assignment) : String :=
  let name := (jsOr assignment.name "").toLower
  let types := assignment.submission_types
  if strIncludes name "exam" && strIncludes name "practice" then "Exam Practice"
  else if strIncludes name "exam" || strIncludes name "midterm" ||
      strIncludes name "final" then "Exam"
  else if strIncludes name "quiz" then "Quiz"
  else if strIncludes name "lab report" then "Lab Report"
  else if strIncludes name "lab" then "Lab"
  else if strIncludes name "essay" || strIncludes name "paper" ||
      strIncludes name "writing" then "Essay"
  else if strIncludes name "project" then "Project"
  else if strIncludes name "survey" then "Survey"
  else if strIncludes name "speech" || strIncludes name "presentation" then "Speech"
  else if strIncludes name "extra credit" then "Extra Credit"
  else if strIncludes name "notes" then "Notes"
  else if types.contains "discussion_topic" || strIncludes name "discussion" then
    "Discussion Post"
  else "Homework"

/-- background.js `SUBMISSION_STATUS_MAP`, as a partial lookup (an absent key
reads `undefined`). -/
def SUBMISSION_STATUS_MAP (s : String) : Option String :=
  if s = "submitted" then some "Submitted"
  else if s = "graded" then some "Submitted"
  else if s = "late" then some "Submitted"
  else if s = "missing" then some "Not started"
  else if s = "unsubmitted" then some "Not started"
  else none

/-- The properties object assembled by `buildNotionProperties`: title, select
values, the Canvas ID rich text, the optional Course relation and the
optional Due Date. -/
structure NotionProps where
  name : String
  status : String
  type : String
  canvasId : String
  courseRelation : Option String
  dueDate : Option String
deriving DecidableEq, Repr

/-- background.js `buildNotionProperties`.  The `Status` select falls back to
"Not started" when the submission status is unmapped or absent; the Course
relation is attached only when `coursePageId` is truthy; a missing
`due_at` omits the Due Date property. -/
def buildNotionProperties (_course : Course) (assignment : Assignment)
    (canvasId : String) (coursePageId : Option String) : NotionProps :=
  { name := assignment.name
    status :=
      (match assignment.submission with
        | some sub => SUBMISSION_STATUS_MAP sub.status
        | none => none).getD "Not started"
    type := inferType assignment
    canvasId := canvasId
    courseRelation := jsOrNull coursePageId
    dueDate := jsOrNull assignment.due_at }

-- ---------------------------------------------------------------------------
-- Upsert loop (Step 4 of handleNotionSync)
-- ---------------------------------------------------------------------------

/-- An issued destination write for an assignment:
`client.createPage(databaseId, properties)` or
`client.updatePage(pageId, properties)`. -/
inductive UpsertCall where
  | createPage (databaseId : String) (properties : NotionProps)
  | updatePage (pageId : String) (properties : NotionProps)
deriving DecidableEq, Repr

/-- The call issued for one item of the upsert loop: an update against the
mapped page when the identity key is present in `canvasIdToPageId`, a create
otherwise. -/
def upsertDecision (databaseId : String) (index : String → Option String)
    (coursePageMap : String → Option String) (item : DiffItem) : UpsertCall :=
  let coursePageId := coursePageMap item.course.canvas_course_id
  let properties :=
    buildNotionProperties item.course item.assignment item.canvasId coursePageId
  match index item.canvasId with
  | some existingPageId => UpsertCall.updatePage existingPageId properties
  | none => UpsertCall.createPage databaseId properties

/-- The counters of the upsert loop and the calls it issued, in order. -/
structure UpsertStats where
  created : Nat
  updated : Nat
  failed : Nat
  calls : List UpsertCall
deriving DecidableEq, Repr

/-- The `try { ... } catch { failed++ }` body of the upsert loop for one
item.  `fails` is the oracle telling whether the destination call for this
item throws; a throwing call was still issued, but bumps `failed` instead of
`created`/`updated`. -/
def upsertStep (databaseId : String) (index : String → Option String)
    (coursePageMap : String → Option String) (fails : String → Bool)
    (acc : UpsertStats) (item : DiffItem) : UpsertStats :=
  let call := upsertDecision databaseId index coursePageMap item
  if fails item.canvasId then
    { acc with failed := acc.failed + 1, calls := acc.calls ++ [call] }
  else
    match call with
    | UpsertCall.updatePage _ _ =>
      { acc with updated := acc.updated + 1, calls := acc.calls ++ [call] }
    | UpsertCall.createPage _ _ =>
      { acc with created := acc.created + 1, calls := acc.calls ++ [call] }

/-- Step 4 of `handleNotionSync`: the two loops over `toCreate` and
`toUpdate` have identical bodies, embedded as one fold over the
concatenation. -/
def processUpserts (databaseId : String) (index : String → Option String)
    (coursePageMap : String → Option String) (fails : String → Bool)
    (items : List DiffItem) : UpsertStats :=
  items.foldl (upsertStep databaseId index coursePageMap fails)
    { created := 0, updated := 0, failed := 0, calls := [] }

-- ---------------------------------------------------------------------------
-- Sync orchestrator (background.js handleNotionSync)
-- ---------------------------------------------------------------------------

/-- The debounce threshold, `SYNC_DEBOUNCE_MS = 5 * 60 * 1000`. -/
def SYNC_DEBOUNCE_MS : Nat := 5 * 60 * 1000

/-- The `lastSyncResult` summary object. -/
structure SyncSummary where
  created : Nat
  updated : Nat
  skipped : Nat
  courses : Nat
deriving DecidableEq, Repr

/-- The shapes of value `handleNotionSync` returns: the debounce marker
`{ skipped: true, reason: "debounced" }`, an `{ error }` object, or a
summary with counts. -/
inductive SyncResult where
  | skippedDebounce
  | error (msg : String)
  | summary (s : SyncSummary)
deriving DecidableEq, Repr

/-- True exactly on the `{ error }` shape. -/
def SyncResult.isError : SyncResult → Bool
  | SyncResult.error _ => true
  | _ => false

/-- True exactly on the counts-summary shape. -/
def SyncResult.isSummary : SyncResult → Bool
  | SyncResult.summary _ => true
  | _ => false

/-- The persisted `browserAPI.storage.local` keys the orchestrator reads and
writes.  `lastSync` is the ISO timestamp of the run start, embedded as the
numeric clock value. -/
structure Storage where
  notionToken : Option String
  databaseId : Option String
  coursesDatabaseId : Option String
  syncCache : Option SyncCache
  lastSync : Option Nat
  lastSyncResult : Option SyncSummary
  coursePageCache : String → Option String

/-- The run environment: the clock, the results the destination returns for
the two listing queries, the id oracle for created course pages, and the
per-item failure oracle for assignment upserts. -/
structure BgEnv where
  now : Nat
  existingCoursePages : List CoursePage
  existingPages : List NotionPage
  newCoursePageId : String → String
  upsertFails : String → Bool

/-- Everything observable about one `handleNotionSync` run: the returned
value, the issued destination writes, whether the two listing queries were
issued, the `failed` counter, and the state after the run. -/
structure SyncOutput where
  result : SyncResult
  upsertCalls : List UpsertCall
  courseCreates : List CourseCreate
  queriedCourses : Bool
  queriedPages : Bool
  failed : Nat
  newStorage : Storage
  newLastSyncTime : Nat

/-- Step 2 of `handleNotionSync`: when `coursesDatabaseId` is truthy, run
`ensureCoursePages`; otherwise keep an empty map and skip the Courses
database entirely. -/
def resolveCoursePages (coursesDatabaseId : Option String) (env : BgEnv)
    (courses : List Course) (cache0 : String → Option String) :
    EnsureResult × Bool :=
  match coursesDatabaseId with
  | some cdb =>
    if cdb = "" then
      ({ resultMap := emptyStrMap, creates := [], coursePageCache := cache0 }, false)
    else
      (ensureCoursePages cdb env.existingCoursePages courses env.newCoursePageId
        cache0, true)
  | none =>
    ({ resultMap := emptyStrMap, creates := [], coursePageCache := cache0 }, false)

/-- background.js `handleNotionSync`: debounce gate, configuration check,
diff against the stored cache, fast path when nothing changed, otherwise
course-page resolution, destination indexing, the upsert loops, and the
final cache/summary persist. -/
def handleNotionSync (lastSyncTime : Nat) (storage : Storage) (env : BgEnv)
    (syncData : SyncData) : SyncOutput :=
  if env.now - lastSyncTime < SYNC_DEBOUNCE_MS then
    { result := SyncResult.skippedDebounce
      upsertCalls := [], courseCreates := []
      queriedCourses := false, queriedPages := false, failed := 0
      newStorage := storage, newLastSyncTime := lastSyncTime }
  else
    match storage.notionToken, storage.databaseId with
    | some notionToken, some databaseId =>
      if notionToken = "" ∨ databaseId = "" then
        { result := SyncResult.error
            "Not configured — connect Notion and set up a database first"
          upsertCalls := [], courseCreates := []
          queriedCourses := false, queriedPages := false, failed := 0
          newStorage := storage, newLastSyncTime := lastSyncTime }
      else
        let cache := storage.syncCache.getD emptySyncCache
        let d := diffAssignments syncData cache
        if d.toCreate.length = 0 ∧ d.toUpdate.length = 0 then
          let newCache := buildSyncCache syncData
          let summary : SyncSummary :=
            { created := 0, updated := 0, skipped := d.unchanged.length
              courses := syncData.courses.length }
          { result := SyncResult.summary summary
            upsertCalls := [], courseCreates := []
            queriedCourses := false, queriedPages := false, failed := 0
            newStorage := { storage with
              syncCache := some newCache
              lastSync := some env.now
              lastSyncResult := some summary }
            newLastSyncTime := env.now }
        else
          let resolved := resolveCoursePages storage.coursesDatabaseId env
            syncData.courses storage.coursePageCache
          let canvasIdToPageId := pageIndex env.existingPages
          let stats := processUpserts databaseId canvasIdToPageId
            resolved.1.resultMap env.upsertFails (d.toCreate ++ d.toUpdate)
          let summary : SyncSummary :=
            { created := stats.created, updated := stats.updated
              skipped := d.unchanged.length
              courses := syncData.courses.length }
          { result := SyncResult.summary summary
            upsertCalls := stats.calls, courseCreates := resolved.1.creates
            queriedCourses := resolved.2, queriedPages := true
            failed := stats.failed
            newStorage := { storage with
              syncCache := some (buildSyncCache syncData)
              lastSync := some env.now
              lastSyncResult := some summary
              coursePageCache := resolved.1.coursePageCache }
            newLastSyncTime := env.now }
    | _, _ =>
      { result := SyncResult.error
          "Not configured — connect Notion and set up a database first"
        upsertCalls := [], courseCreates := []
        queriedCourses := false, queriedPages := false, failed := 0
        newStorage := storage, newLastSyncTime := lastSyncTime }

/-- The `MANUAL_SYNC` message handler resets the debounce gate
(`lastSyncTime = 0`) before starting the forced run. -/
def manualSyncGateReset : Nat := 0

-- ---------------------------------------------------------------------------
-- Content-script pipeline vs token-based background pipeline
-- ---------------------------------------------------------------------------

/-- A raw Canvas submission object, with the fields the two mappers read. -/
structure RawSubmission where
  missing : Bool
  late : Bool
  workflow_state : String
  submitted_at : Option String
deriving DecidableEq, Repr

/-- content.js `mapSubmission`. -/
def mapSubmission : Option RawSubmission → Submission
  | none => { status := "unsubmitted", submitted_at := none }
  | some sub =>
    let status :=
      if sub.missing then "missing"
      else if sub.late then "late"
      else if sub.workflow_state = "graded" then "graded"
      else if sub.workflow_state = "submitted" then "submitted"
      else "unsubmitted"
    { status := status, submitted_at := jsOrNull sub.submitted_at }

/-- background.js `mapSubmissionBackground`. -/
def mapSubmissionBackground : Option RawSubmission → Submission
  | none => { status := "unsubmitted", submitted_at := none }
  | some sub =>
    let status :=
      if sub.missing then "missing"
      else if sub.late then "late"
      else if sub.workflow_state = "graded" then "graded"
      else if sub.workflow_state = "submitted" then "submitted"
      else "unsubmitted"
    { status := status, submitted_at := jsOrNull sub.submitted_at }

/-- JavaScript `\s` on the ASCII range: the whitespace characters the regex
`rel="next"` matcher may skip. -/
def jsWhitespaceChar (c : Char) : Bool :=
  c = ' ' ∨ c = '\t' ∨ c = '\n' ∨ c = '\r' ∨ c = '\x0b' ∨ c = '\x0c'

/-- Attempt to match the regex `<([^>]+)>;\s*rel="next"` at the head of the
character list, returning the first capture group.  The greedy `[^>]+`
cannot backtrack past a non-`>` character, so the maximal run before the
first `>` is the only candidate. -/
def matchLinkAt : List Char → Option String
  | '<' :: rest =>
    let inner := rest.takeWhile (fun c => c ≠ '>')
    match rest.dropWhile (fun c => c ≠ '>') with
    | '>' :: ';' :: rest2 =>
      if inner.isEmpty then none
      else if ("rel=\"next\"".toList).isPrefixOf
          (rest2.dropWhile jsWhitespaceChar) then
        some (String.mk inner)
      else none
    | _ => none
  | _ => none

/-- Unanchored search for the regex, scanning start positions left to
right. -/
def findLinkNext : List Char → Option String
  | [] => none
  | c :: cs =>
    match matchLinkAt (c :: cs) with
    | some r => some r
    | none => findLinkNext cs

/-- Model of `part.match(...)` against the rel-next pattern, returning the capture `match[1]`. -/
def linkRelNextMatch (part : String) : Option String :=
  findLinkNext part.toList

/-- content.js `parseLinkNext`: split the Link header on commas and return
the first part carrying `rel="next"`. -/
def parseLinkNext (header : Option String) : Option String :=
  match header with
  | none => none
  | some h =>
    if h = "" then none
    else (h.splitOn ",").findSome? linkRelNextMatch

/-- background.js `parseLinkHeaderNext`. -/
def parseLinkHeaderNext (header : Option String) : Option String :=
  match header with
  | none => none
  | some h =>
    if h = "" then none
    else (h.splitOn ",").findSome? linkRelNextMatch

/-- A `syncData` payload carrying a single course with a single
assignment. -/
def singletonSync (course : Course) (assignment : Assignment) : SyncData :=
  { institution_domain := "", canvas_user_id := none
    courses := [{ course with assignments := [assignment] }] }

/-- The diff classifies the single record with key `k` as an update. -/
def classifiedUpdate (syncData : SyncData) (cache : SyncCache) (k : String) :
    Prop :=
  (diffAssignments syncData cache).toCreate = [] ∧
  (diffAssignments syncData cache).toUpdate.map (fun it => it.canvasId) = [k] ∧
  (diffAssignments syncData cache).unchanged = []

/-- The diff classifies the single record with key `k` as unchanged. -/
def classifiedUnchanged (syncData : SyncData) (cache : SyncCache) (k : String) :
    Prop :=
  (diffAssignments syncData cache).toCreate = [] ∧
  (diffAssignments syncData cache).toUpdate = [] ∧
  (diffAssignments syncData cache).unchanged = [k]

/-- The keyword rules of `inferType` as an ordered `(predicate, kind)` table
over the lowercased name, in source order: the multi-word "exam"+"practice"
rule precedes the single-word "exam" rule.  The final discussion rule is
stated over the name only, which coincides with `inferType` whenever
`submission_types` is empty (the collectors never set it). -/
def typeRules : List ((String → Bool) × String) :=
  [ (fun n => strIncludes n "exam" && strIncludes n "practice", "Exam Practice")
  , (fun n => strIncludes n "exam" || strIncludes n "midterm" ||
      strIncludes n "final", "Exam")
  , (fun n => strIncludes n "quiz", "Quiz")
  , (fun n => strIncludes n "lab report", "Lab Report")
  , (fun n => strIncludes n "lab", "Lab")
  , (fun n => strIncludes n "essay" || strIncludes n "paper" ||
      strIncludes n "writing", "Essay")
  , (fun n => strIncludes n "project", "Project")
  , (fun n => strIncludes n "survey", "Survey")
  , (fun n => strIncludes n "speech" || strIncludes n "presentation", "Speech")
  , (fun n => strIncludes n "extra credit", "Extra Credit")
  , (fun n => strIncludes n "notes", "Notes")
  , (fun n => strIncludes n "discussion", "Discussion Post") ]

/-- First-match evaluation of an ordered rule table. -/
def firstMatch : List ((String → Bool) × String) → String → Option String
  | [], _ => none
  | (p, tag) :: rest, n => if p n then some tag else firstMatch rest n

-- ---------------------------------------------------------------------------
-- Concrete sample data used by counterexamples and witnesses
-- ---------------------------------------------------------------------------

/-- A payload whose two fresh records share the composite key "1:100" but
carry different names. -/
def sampleDupSyncData : SyncData :=
  { institution_domain := "", canvas_user_id := none
    courses :=
      [{ canvas_course_id := "1", name := "C", course_code := ""
         assignments :=
           [{ canvas_assignment_id := "100", name := "A", due_at := none
              points_possible := 0, html_url := none, submission := none
              submission_types := [] },
            { canvas_assignment_id := "100", name := "B", due_at := none
              points_possible := 0, html_url := none, submission := none
              submission_types := [] }] }] }

/-- A payload with two fresh records under the distinct keys "1:100" and
"1:101". -/
def sampleDistinctSyncData : SyncData :=
  { institution_domain := "", canvas_user_id := none
    courses :=
      [{ canvas_course_id := "1", name := "C", course_code := ""
         assignments :=
           [{ canvas_assignment_id := "100", name := "A", due_at := none
              points_possible := 10, html_url := none, submission := none
              submission_types := [] },
            { canvas_assignment_id := "101", name := "B", due_at := none
              points_possible := 0, html_url := none, submission := none
              submission_types := [] }] }] }

/-- A concrete course used by witnesses. -/
def sampleCourse : Course :=
  { canvas_course_id := "1", name := "C", course_code := "", assignments := [] }

/-- A concrete submission used by witnesses. -/
def sampleSubmission : Submission :=
  { status := "unsubmitted", submitted_at := none }

/-- A concrete assignment used by witnesses. -/
def sampleAssignment : Assignment :=
  { canvas_assignment_id := "100", name := "HW1", due_at := some "2024-01-01"
    points_possible := 10, html_url := some "https://x/a"
    submission := some sampleSubmission, submission_types := [] }

/-- The cache a run over `sampleAssignment` persists. -/
def sampleCache : SyncCache :=
  buildSyncCache (singletonSync sampleCourse sampleAssignment)

/-- A configured storage state used by witnesses and counterexamples. -/
def sampleStorage : Storage :=
  { notionToken := some "tok", databaseId := some "db"
    coursesDatabaseId := some "cdb", syncCache := none, lastSync := none
    lastSyncResult := none, coursePageCache := emptyStrMap }

/-- A run environment with empty destination listings and no failing calls,
at the given clock value. -/
def sampleEnv (now : Nat) : BgEnv :=
  { now := now, existingCoursePages := [], existingPages := []
    newCoursePageId := fun c => "course-" ++ c
    upsertFails := fun _ => false }

/-- A run environment at the threshold clock whose destination listing
already holds a page mapped to the identity key "1:100". -/
def sampleEnvDest : BgEnv :=
  { sampleEnv SYNC_DEBOUNCE_MS with
    existingPages := [{ id := "pageX", canvasIdText := some "1:100" }] }

/-- A run environment at the threshold clock in which the destination call
for the identity key "1:100" throws. -/
def sampleEnvFail : BgEnv :=
  { sampleEnv SYNC_DEBOUNCE_MS with upsertFails := fun k => k = "1:100" }

-- ---------------------------------------------------------------------------
-- Helper lemmas
-- ---------------------------------------------------------------------------

theorem fingerprintChanged_self (f : Fingerprint) :
    fingerprintChanged f f = false := by
  simp [fingerprintChanged]

theorem fingerprintChanged_eq_false_iff (f g : Fingerprint) :
    fingerprintChanged f g = false ↔ f = g := by
  cases f; cases g
  simp [fingerprintChanged, Fingerprint.mk.injEq]
  tauto

theorem diffFold (cache : SyncCache) (l : List DiffItem) (acc : DiffResult) :
    l.foldl (diffStep cache) acc =
      { toCreate := acc.toCreate ++ l.filter (isNewForCache cache)
        toUpdate := acc.toUpdate ++ l.filter (isChangedForCache cache)
        unchanged := acc.unchanged ++
          (l.filter (isUnchangedForCache cache)).map (fun it => it.canvasId) } := by
  induction l generalizing acc with
  | nil => simp
  | cons x xs ih =>
    rw [List.foldl_cons, ih]
    cases hc : cache x.canvasId with
    | none =>
      simp [diffStep, hc, isNewForCache, isChangedForCache,
        isUnchangedForCache, List.filter_cons, List.append_assoc]
    | some cached =>
      by_cases hch : fingerprintChanged (buildFingerprint x.assignment) cached
      · simp [diffStep, hc, hch, isNewForCache, isChangedForCache,
          isUnchangedForCache, List.filter_cons, List.append_assoc]
      · simp [diffStep, hc, hch, isNewForCache, isChangedForCache,
          isUnchangedForCache, List.filter_cons, List.append_assoc]

theorem diffAssignments_eq (syncData : SyncData) (cache : SyncCache) :
    diffAssignments syncData cache =
      { toCreate := (diffItems syncData).filter (isNewForCache cache)
        toUpdate := (diffItems syncData).filter (isChangedForCache cache)
        unchanged := ((diffItems syncData).filter
          (isUnchangedForCache cache)).map (fun it => it.canvasId) } := by
  simp [diffAssignments, diffFold]

theorem diff_buckets_length (cache : SyncCache) (l : List DiffItem) :
    (l.filter (isNewForCache cache)).length +
      (l.filter (isChangedForCache cache)).length +
      (l.filter (isUnchangedForCache cache)).length = l.length := by
  induction l with
  | nil => simp
  | cons x xs ih =>
    cases hc : cache x.canvasId with
    | none =>
      simp [List.filter_cons, isNewForCache, isChangedForCache,
        isUnchangedForCache, hc]
      omega
    | some cached =>
      by_cases hch : fingerprintChanged (buildFingerprint x.assignment) cached
      · simp [List.filter_cons, isNewForCache, isChangedForCache,
          isUnchangedForCache, hc, hch]
        omega
      · simp [List.filter_cons, isNewForCache, isChangedForCache,
          isUnchangedForCache, hc, hch]
        omega

theorem cacheFold_notmem (l : List DiffItem) (c : SyncCache) (k : String)
    (h : k ∉ l.map (fun it => it.canvasId)) : (l.foldl cacheStep c) k = c k := by
  induction l generalizing c with
  | nil => rfl
  | cons x xs ih =>
    simp only [List.map_cons, List.mem_cons, not_or] at h
    rw [List.foldl_cons, ih _ h.2]
    simp [cacheStep, setKey, h.1]

theorem cacheFold_isSome_mono (l : List DiffItem) (c : SyncCache) (k : String)
    (h : (c k).isSome = true) : ((l.foldl cacheStep c) k).isSome = true := by
  induction l generalizing c with
  | nil => exact h
  | cons x xs ih =>
    rw [List.foldl_cons]
    apply ih
    simp only [cacheStep, setKey]
    by_cases hk : k = x.canvasId <;> simp [hk, h]

theorem cacheFold_isSome_of_mem (l : List DiffItem) (c : SyncCache)
    (it : DiffItem) (h : it ∈ l) :
    ((l.foldl cacheStep c) it.canvasId).isSome = true := by
  induction l generalizing c with
  | nil => cases h
  | cons x xs ih =>
    rw [List.foldl_cons]
    rcases List.mem_cons.mp h with h | h
    · apply cacheFold_isSome_mono
      simp [cacheStep, setKey, h]
    · exact ih _ h

theorem cacheFold_mem_nodup (l : List DiffItem) (c : SyncCache)
    (it : DiffItem) (h1 : (l.map (fun it => it.canvasId)).Nodup)
    (h2 : it ∈ l) :
    (l.foldl cacheStep c) it.canvasId = some (buildFingerprint it.assignment) := by
  induction l generalizing c with
  | nil => cases h2
  | cons x xs ih =>
    simp only [List.map_cons, List.nodup_cons] at h1
    rw [List.foldl_cons]
    rcases List.mem_cons.mp h2 with h | h
    · subst h
      rw [cacheFold_notmem _ _ _ h1.1]
      simp [cacheStep, setKey]
    · exact ih _ h1.2 h

theorem buildSyncCache_lookup_nodup (syncData : SyncData) (it : DiffItem)
    (h1 : ((diffItems syncData).map (fun it => it.canvasId)).Nodup)
    (h2 : it ∈ diffItems syncData) :
    buildSyncCache syncData it.canvasId = some (buildFingerprint it.assignment) :=
  cacheFold_mem_nodup _ _ _ h1 h2

theorem buildSyncCache_isSome_of_mem (syncData : SyncData) (it : DiffItem)
    (h : it ∈ diffItems syncData) :
    ((buildSyncCache syncData) it.canvasId).isSome = true :=
  cacheFold_isSome_of_mem _ _ _ h

theorem upsertFold (db : String) (idx cpm : String → Option String)
    (fails : String → Bool) (l : List DiffItem) (acc : UpsertStats) :
    l.foldl (upsertStep db idx cpm fails) acc =
      { created := acc.created + l.countP
          (fun it => (idx it.canvasId).isNone && !fails it.canvasId)
        updated := acc.updated + l.countP
          (fun it => (idx it.canvasId).isSome && !fails it.canvasId)
        failed := acc.failed + l.countP (fun it => fails it.canvasId)
        calls := acc.calls ++ l.map (upsertDecision db idx cpm) } := by
  induction l generalizing acc with
  | nil => simp
  | cons x xs ih =>
    rw [List.foldl_cons, ih]
    by_cases hf : fails x.canvasId <;> cases hc : idx x.canvasId <;>
      simp [upsertStep, upsertDecision, hf, hc, List.countP_cons,
        List.append_assoc] <;> omega

theorem processUpserts_eq (db : String) (idx cpm : String → Option String)
    (fails : String → Bool) (l : List DiffItem) :
    processUpserts db idx cpm fails l =
      { created := l.countP
          (fun it => (idx it.canvasId).isNone && !fails it.canvasId)
        updated := l.countP
          (fun it => (idx it.canvasId).isSome && !fails it.canvasId)
        failed := l.countP (fun it => fails it.canvasId)
        calls := l.map (upsertDecision db idx cpm) } := by
  simp [processUpserts, upsertFold]

theorem ensureFold_creates (cdb : String) (m : String → Option String)
    (nid : String → String) (l : List Course) (acc : EnsureResult) :
    (l.foldl (ensureStep cdb m nid) acc).creates =
      acc.creates ++ (l.filter (fun c => (m c.canvas_course_id).isNone)).map
        (fun c => { coursesDatabaseId := cdb, name := c.name
                    canvasCourseId := c.canvas_course_id
                    newPageId := nid c.canvas_course_id }) := by
  induction l generalizing acc with
  | nil => simp
  | cons x xs ih =>
    rw [List.foldl_cons, ih]
    cases hc : m x.canvas_course_id <;>
      simp [ensureStep, hc, List.filter_cons, List.append_assoc]

theorem ensureFold_resultMap_stable (cdb : String) (m : String → Option String)
    (nid : String → String) (l : List Course) (acc : EnsureResult)
    (k pid : String) (hm : m k = some pid) (hacc : acc.resultMap k = some pid) :
    (l.foldl (ensureStep cdb m nid) acc).resultMap k = some pid := by
  induction l generalizing acc with
  | nil => exact hacc
  | cons x xs ih =>
    rw [List.foldl_cons]
    apply ih
    by_cases hk : k = x.canvas_course_id
    · subst hk
      simp [ensureStep, hm, setKey]
    · cases hc : m x.canvas_course_id <;> simp [ensureStep, hc, setKey, hk, hacc]

theorem ensureFold_resultMap_of_mem (cdb : String) (m : String → Option String)
    (nid : String → String) (l : List Course) (acc : EnsureResult)
    (c : Course) (pid : String) (hmem : c ∈ l)
    (hm : m c.canvas_course_id = some pid) :
    (l.foldl (ensureStep cdb m nid) acc).resultMap c.canvas_course_id = some pid := by
  induction l generalizing acc with
  | nil => cases hmem
  | cons x xs ih =>
    rw [List.foldl_cons]
    rcases List.mem_cons.mp hmem with h | h
    · subst h
      apply ensureFold_resultMap_stable _ _ _ _ _ _ _ hm
      simp [ensureStep, hm, setKey]
    · exact ih _ h

theorem coursePageFold_congr (p1 p2 : List CoursePage) (acc : String → Option String)
    (h : p1.map (fun p => (p.id, p.canvasCourseIdText)) =
      p2.map (fun p => (p.id, p.canvasCourseIdText))) :
    p1.foldl coursePageIndexStep acc = p2.foldl coursePageIndexStep acc := by
  induction p1 generalizing p2 acc with
  | nil =>
    cases p2 with
    | nil => rfl
    | cons y ys => simp at h
  | cons x xs ih =>
    cases p2 with
    | nil => simp at h
    | cons y ys =>
      simp only [List.map_cons, List.cons.injEq, Prod.mk.injEq] at h
      rw [List.foldl_cons, List.foldl_cons, ih ys _ h.2]
      have hstep : coursePageIndexStep acc x = coursePageIndexStep acc y := by
        simp [coursePageIndexStep, h.1.1, h.1.2]
      rw [hstep]

theorem coursePageIndex_congr (p1 p2 : List CoursePage)
    (h : p1.map (fun p => (p.id, p.canvasCourseIdText)) =
      p2.map (fun p => (p.id, p.canvasCourseIdText))) :
    coursePageIndex p1 = coursePageIndex p2 :=
  coursePageFold_congr p1 p2 emptyStrMap h

theorem ensureCoursePages_congr (cdb : String) (p1 p2 : List CoursePage)
    (courses : List Course) (nid : String → String)
    (cache0 : String → Option String)
    (h : p1.map (fun p => (p.id, p.canvasCourseIdText)) =
      p2.map (fun p => (p.id, p.canvasCourseIdText))) :
    ensureCoursePages cdb p1 courses nid cache0 =
      ensureCoursePages cdb p2 courses nid cache0 := by
  unfold ensureCoursePages
  rw [coursePageIndex_congr p1 p2 h]

theorem handleNotionSync_debounced (lastSyncTime : Nat) (storage : Storage)
    (env : BgEnv) (syncData : SyncData)
    (h : env.now - lastSyncTime < SYNC_DEBOUNCE_MS) :
    handleNotionSync lastSyncTime storage env syncData =
      { result := SyncResult.skippedDebounce
        upsertCalls := [], courseCreates := []
        queriedCourses := false, queriedPages := false, failed := 0
        newStorage := storage, newLastSyncTime := lastSyncTime } := by
  unfold handleNotionSync
  rw [if_pos h]

theorem handleNotionSync_full (lastSyncTime : Nat) (storage : Storage)
    (env : BgEnv) (syncData : SyncData) (nt db : String)
    (hgate : ¬(env.now - lastSyncTime < SYNC_DEBOUNCE_MS))
    (htok : storage.notionToken = some nt)
    (hdb : storage.databaseId = some db)
    (hcfg : ¬(nt = "" ∨ db = ""))
    (hfull : ¬((diffAssignments syncData
        (storage.syncCache.getD emptySyncCache)).toCreate.length = 0 ∧
      (diffAssignments syncData
        (storage.syncCache.getD emptySyncCache)).toUpdate.length = 0)) :
    handleNotionSync lastSyncTime storage env syncData =
      { result := SyncResult.summary
          { created := (processUpserts db (pageIndex env.existingPages)
              (resolveCoursePages storage.coursesDatabaseId env syncData.courses
                storage.coursePageCache).1.resultMap env.upsertFails
              ((diffAssignments syncData
                (storage.syncCache.getD emptySyncCache)).toCreate ++
               (diffAssignments syncData
                (storage.syncCache.getD emptySyncCache)).toUpdate)).created
            updated := (processUpserts db (pageIndex env.existingPages)
              (resolveCoursePages storage.coursesDatabaseId env syncData.courses
                storage.coursePageCache).1.resultMap env.upsertFails
              ((diffAssignments syncData
                (storage.syncCache.getD emptySyncCache)).toCreate ++
               (diffAssignments syncData
                (storage.syncCache.getD emptySyncCache)).toUpdate)).updated
            skipped := (diffAssignments syncData
              (storage.syncCache.getD emptySyncCache)).unchanged.length
            courses := syncData.courses.length }
        upsertCalls := (processUpserts db (pageIndex env.existingPages)
          (resolveCoursePages storage.coursesDatabaseId env syncData.courses
            storage.coursePageCache).1.resultMap env.upsertFails
          ((diffAssignments syncData
            (storage.syncCache.getD emptySyncCache)).toCreate ++
           (diffAssignments syncData
            (storage.syncCache.getD emptySyncCache)).toUpdate)).calls
        courseCreates := (resolveCoursePages storage.coursesDatabaseId env
          syncData.courses storage.coursePageCache).1.creates
        queriedCourses := (resolveCoursePages storage.coursesDatabaseId env
          syncData.courses storage.coursePageCache).2
        queriedPages := true
        failed := (processUpserts db (pageIndex env.existingPages)
          (resolveCoursePages storage.coursesDatabaseId env syncData.courses
            storage.coursePageCache).1.resultMap env.upsertFails
          ((diffAssignments syncData
            (storage.syncCache.getD emptySyncCache)).toCreate ++
           (diffAssignments syncData
            (storage.syncCache.getD emptySyncCache)).toUpdate)).failed
        newStorage := { storage with
          syncCache := some (buildSyncCache syncData)
          lastSync := some env.now
          lastSyncResult := some
            { created := (processUpserts db (pageIndex env.existingPages)
                (resolveCoursePages storage.coursesDatabaseId env
                  syncData.courses storage.coursePageCache).1.resultMap
                env.upsertFails
                ((diffAssignments syncData
                  (storage.syncCache.getD emptySyncCache)).toCreate ++
                 (diffAssignments syncData
                  (storage.syncCache.getD emptySyncCache)).toUpdate)).created
              updated := (processUpserts db (pageIndex env.existingPages)
                (resolveCoursePages storage.coursesDatabaseId env
                  syncData.courses storage.coursePageCache).1.resultMap
                env.upsertFails
                ((diffAssignments syncData
                  (storage.syncCache.getD emptySyncCache)).toCreate ++
                 (diffAssignments syncData
                  (storage.syncCache.getD emptySyncCache)).toUpdate)).updated
              skipped := (diffAssignments syncData
                (storage.syncCache.getD emptySyncCache)).unchanged.length
              courses := syncData.courses.length }
          coursePageCache := (resolveCoursePages storage.coursesDatabaseId env
            syncData.courses storage.coursePageCache).1.coursePageCache }
        newLastSyncTime := env.now } := by
  unfold handleNotionSync
  rw [if_neg hgate]
  simp only [htok, hdb]
  rw [if_neg hcfg, if_neg hfull]

theorem handleNotionSync_not_skipped (lastSyncTime : Nat) (storage : Storage)
    (env : BgEnv) (syncData : SyncData)
    (h : ¬(env.now - lastSyncTime < SYNC_DEBOUNCE_MS)) :
    (handleNotionSync lastSyncTime storage env syncData).result ≠
      SyncResult.skippedDebounce := by
  unfold handleNotionSync
  rw [if_neg h]
  rcases storage.notionToken with _ | nt <;> rcases storage.databaseId with _ | db
  all_goals simp
  all_goals split_ifs <;> simp

theorem fingerprintChanged_eq_true_iff (f g : Fingerprint) :
    fingerprintChanged f g = true ↔ f ≠ g := by
  rw [Ne, ← fingerprintChanged_eq_false_iff f g]
  cases fingerprintChanged f g <;> simp

theorem diffAssignments_singleton (course : Course) (a : Assignment)
    (cache : SyncCache) :
    diffAssignments (singletonSync course a) cache =
      diffStep cache { toCreate := [], toUpdate := [], unchanged := [] }
        { course := { course with assignments := [a] }, assignment := a
          canvasId := mkCanvasId course a } := rfl

theorem singleton_classifiedUpdate (course : Course) (a : Assignment)
    (cache : SyncCache) (fp : Fingerprint)
    (h : cache (mkCanvasId course a) = some fp)
    (hfp : fingerprintChanged (buildFingerprint a) fp = true) :
    classifiedUpdate (singletonSync course a) cache (mkCanvasId course a) := by
  unfold classifiedUpdate
  rw [diffAssignments_singleton]
  simp [diffStep, h, hfp]

theorem singleton_classifiedUnchanged (course : Course) (a : Assignment)
    (cache : SyncCache) (fp : Fingerprint)
    (h : cache (mkCanvasId course a) = some fp)
    (hfp : fingerprintChanged (buildFingerprint a) fp = false) :
    classifiedUnchanged (singletonSync course a) cache (mkCanvasId course a) := by
  unfold classifiedUnchanged
  rw [diffAssignments_singleton]
  simp [diffStep, h, hfp]

-- ---------------------------------------------------------------------------
-- Claims
-- ---------------------------------------------------------------------------

/-- C1: given the fresh records and the sync cache, `diffAssignments`
classifies every fresh record into exactly one bucket by its composite
identity key — absent from the cache ⇒ `toCreate`, present with a differing
fingerprint ⇒ `toUpdate`, present with an identical fingerprint ⇒
`unchanged` — and within each bucket records appear in input order (each
bucket is the input-order filter of the visited records by its condition,
and the three bucket sizes partition the input). -/
theorem diff_engine_classifies_by_identity_key (syncData : SyncData)
    (cache : SyncCache) :
    diffAssignments syncData cache =
      { toCreate := (diffItems syncData).filter (isNewForCache cache)
        toUpdate := (diffItems syncData).filter (isChangedForCache cache)
        unchanged := ((diffItems syncData).filter
          (isUnchangedForCache cache)).map (fun it => it.canvasId) } ∧
    (diffAssignments syncData cache).toCreate.length +
      (diffAssignments syncData cache).toUpdate.length +
      (diffAssignments syncData cache).unchanged.length =
      (diffItems syncData).length := by
  refine ⟨diffAssignments_eq _ _, ?_⟩
  rw [diffAssignments_eq]
  simpa using diff_buckets_length cache (diffItems syncData)

/-- C6 (counterexample): idempotence of the diff against the cache built
from the same records fails when two fresh records share one composite
identity key with different fingerprints — `buildSyncCache` keeps only the
last fingerprint, so the first record is classified as an update, not
unchanged. -/
theorem diff_idempotence_fails_on_duplicate_keys :
    (diffAssignments sampleDupSyncData
      (buildSyncCache sampleDupSyncData)).toUpdate ≠ [] := by
  decide

/-- C6 (amended): provided the composite identity keys of the fresh records
are pairwise distinct, diffing the records against the cache built from them
yields empty `toCreate` and `toUpdate`, with every record classified
unchanged — the diff engine is idempotent across consecutive runs with
identical input. -/
theorem diff_idempotent_on_distinct_keys (syncData : SyncData)
    (h : ((diffItems syncData).map (fun it => it.canvasId)).Nodup) :
    diffAssignments syncData (buildSyncCache syncData) =
      { toCreate := [], toUpdate := []
        unchanged := (diffItems syncData).map (fun it => it.canvasId) } := by
  rw [diffAssignments_eq]
  have hlook : ∀ it ∈ diffItems syncData,
      buildSyncCache syncData it.canvasId = some (buildFingerprint it.assignment) :=
    fun it hit => buildSyncCache_lookup_nodup syncData it h hit
  have h1 : (diffItems syncData).filter
      (isNewForCache (buildSyncCache syncData)) = [] := by
    rw [List.filter_eq_nil_iff]
    intro it hit
    simp [isNewForCache, hlook it hit]
  have h2 : (diffItems syncData).filter
      (isChangedForCache (buildSyncCache syncData)) = [] := by
    rw [List.filter_eq_nil_iff]
    intro it hit
    simp [isChangedForCache, hlook it hit, fingerprintChanged_self]
  have h3 : (diffItems syncData).filter
      (isUnchangedForCache (buildSyncCache syncData)) = diffItems syncData := by
    rw [List.filter_eq_self]
    intro it hit
    simp [isUnchangedForCache, hlook it hit, fingerprintChanged_self]
  rw [h1, h2, h3]

/-- C6 (witness): a concrete two-record payload with distinct keys on which
the amended idempotence theorem applies. -/
theorem diff_idempotent_on_distinct_keys_witness :
    diffAssignments sampleDistinctSyncData
        (buildSyncCache sampleDistinctSyncData) =
      { toCreate := [], toUpdate := [], unchanged := ["1:100", "1:101"] } := by
  rw [diff_idempotent_on_distinct_keys sampleDistinctSyncData (by decide)]
  decide

/-- C5: for an assignment record cached as unchanged, changing exactly one
of the five fingerprint fields — name, due date, points, submission status,
URL — to a (normalization-distinct) new value reclassifies the record from
unchanged to `toUpdate`, while changing the fields outside the fingerprint
(`submitted_at`, `submission_types`) leaves it classified unchanged.  The
due-date/URL/status hypotheses compare values through the collector
normalization (`x || null`, `status || "unsubmitted"`), mirroring the
canonical field the fingerprint stores. -/
theorem fingerprint_field_sensitivity (course : Course) (a : Assignment)
    (s : Submission) (cache : SyncCache)
    (hsub : a.submission = some s)
    (hcache : cache (mkCanvasId course a) = some (buildFingerprint a)) :
    classifiedUnchanged (singletonSync course a) cache (mkCanvasId course a) ∧
    (∀ n', n' ≠ a.name →
      classifiedUpdate (singletonSync course { a with name := n' }) cache
        (mkCanvasId course a)) ∧
    (∀ d', jsOrNull d' ≠ jsOrNull a.due_at →
      classifiedUpdate (singletonSync course { a with due_at := d' }) cache
        (mkCanvasId course a)) ∧
    (∀ p', p' ≠ a.points_possible →
      classifiedUpdate (singletonSync course { a with points_possible := p' })
        cache (mkCanvasId course a)) ∧
    (∀ st', jsOr st' "unsubmitted" ≠ jsOr s.status "unsubmitted" →
      classifiedUpdate
        (singletonSync course { a with submission := some { s with status := st' } })
        cache (mkCanvasId course a)) ∧
    (∀ u', jsOrNull u' ≠ jsOrNull a.html_url →
      classifiedUpdate (singletonSync course { a with html_url := u' }) cache
        (mkCanvasId course a)) ∧
    (∀ t', classifiedUnchanged
      (singletonSync course { a with submission := some { s with submitted_at := t' } })
      cache (mkCanvasId course a)) ∧
    (∀ ty', classifiedUnchanged
      (singletonSync course { a with submission_types := ty' }) cache
      (mkCanvasId course a)) := by
  have hstat : (buildFingerprint a).status = jsOr s.status "unsubmitted" := by
    simp [buildFingerprint, hsub]
  refine ⟨?_, ?_, ?_, ?_, ?_, ?_, ?_, ?_⟩
  · exact singleton_classifiedUnchanged course a cache _ hcache
      (fingerprintChanged_self _)
  · intro n' hn
    have hfp : fingerprintChanged (buildFingerprint { a with name := n' })
        (buildFingerprint a) = true := by
      rw [fingerprintChanged_eq_true_iff]
      intro heq
      have h2 := congrArg Fingerprint.name heq
      simp only [buildFingerprint] at h2
      exact hn h2
    exact singleton_classifiedUpdate course { a with name := n' } cache _
      hcache hfp
  · intro d' hd
    have hfp : fingerprintChanged (buildFingerprint { a with due_at := d' })
        (buildFingerprint a) = true := by
      rw [fingerprintChanged_eq_true_iff]
      intro heq
      have h2 := congrArg Fingerprint.due_at heq
      simp only [buildFingerprint] at h2
      exact hd h2
    exact singleton_classifiedUpdate course { a with due_at := d' } cache _
      hcache hfp
  · intro p' hp
    have hfp : fingerprintChanged
        (buildFingerprint { a with points_possible := p' })
        (buildFingerprint a) = true := by
      rw [fingerprintChanged_eq_true_iff]
      intro heq
      have h2 := congrArg Fingerprint.points_possible heq
      simp only [buildFingerprint] at h2
      exact hp h2
    exact singleton_classifiedUpdate course { a with points_possible := p' }
      cache _ hcache hfp
  · intro st' hst
    have hfp : fingerprintChanged
        (buildFingerprint { a with submission := some { s with status := st' } })
        (buildFingerprint a) = true := by
      rw [fingerprintChanged_eq_true_iff]
      intro heq
      have h2 := congrArg Fingerprint.status heq
      rw [hstat] at h2
      simp only [buildFingerprint] at h2
      exact hst h2
    exact singleton_classifiedUpdate course
      { a with submission := some { s with status := st' } } cache _ hcache hfp
  · intro u' hu
    have hfp : fingerprintChanged (buildFingerprint { a with html_url := u' })
        (buildFingerprint a) = true := by
      rw [fingerprintChanged_eq_true_iff]
      intro heq
      have h2 := congrArg Fingerprint.html_url heq
      simp only [buildFingerprint] at h2
      exact hu h2
    exact singleton_classifiedUpdate course { a with html_url := u' } cache _
      hcache hfp
  · intro t'
    have heq : buildFingerprint
        { a with submission := some { s with submitted_at := t' } } =
        buildFingerprint a := by
      simp [buildFingerprint, hsub]
    have hfp : fingerprintChanged
        (buildFingerprint { a with submission := some { s with submitted_at := t' } })
        (buildFingerprint a) = false := by
      rw [heq]
      exact fingerprintChanged_self _
    exact singleton_classifiedUnchanged course
      { a with submission := some { s with submitted_at := t' } } cache _
      hcache hfp
  · intro ty'
    have hfp : fingerprintChanged
        (buildFingerprint { a with submission_types := ty' })
        (buildFingerprint a) = false := by
      have heq : buildFingerprint { a with submission_types := ty' } =
          buildFingerprint a := rfl
      rw [heq]
      exact fingerprintChanged_self _
    exact singleton_classifiedUnchanged course { a with submission_types := ty' }
      cache _ hcache hfp

/-- C5 (witness): the concrete cached assignment, with its name changed,
moves from unchanged to `toUpdate`. -/
theorem fingerprint_field_sensitivity_witness :
    classifiedUpdate
      (singletonSync sampleCourse { sampleAssignment with name := "HW2" })
      sampleCache (mkCanvasId sampleCourse sampleAssignment) :=
  (fingerprint_field_sensitivity sampleCourse sampleAssignment sampleSubmission
    sampleCache rfl (by decide)).2.1 "HW2" (by decide)

/-- C8: for every assignment of the canonical record shape (which carries no
submission-types list), the derived Type classification equals first-match
evaluation of the fixed ordered keyword-rule table over the lowercased name,
the multi-word "exam"+"practice" rule wins over the single-word "exam" rule,
and a name matching no rule yields the baseline kind "Homework". -/
theorem infer_type_first_match_rules (a : Assignment)
    (h : a.submission_types = []) :
    inferType a = (firstMatch typeRules ((jsOr a.name "").toLower)).getD "Homework" ∧
    (∀ n, strIncludes n "exam" = true → strIncludes n "practice" = true →
      firstMatch typeRules n = some "Exam Practice") ∧
    (∀ n, (typeRules.all fun r => !r.1 n) = true →
      (firstMatch typeRules n).getD "Homework" = "Homework") := by
  refine ⟨?_, ?_, ?_⟩
  · simp only [inferType, h, List.contains_nil, Bool.false_or, typeRules,
      firstMatch, apply_ite (fun o : Option String => o.getD "Homework"),
      Option.getD_some, Option.getD_none]
  · intro n h1 h2
    simp [typeRules, firstMatch, h1, h2]
  · intro n hall
    simp only [typeRules, List.all_cons, List.all_nil, Bool.and_eq_true,
      Bool.not_eq_true', and_true] at hall
    obtain ⟨f1, f2, f3, f4, f5, f6, f7, f8, f9, f10, f11, f12⟩ := hall
    simp [firstMatch, typeRules, f1, f2, f3, f4, f5, f6, f7, f8, f9, f10,
      f11, f12]

/-- C8 (witness): the rule-table characterization applied to a concrete
assignment named "Practice Exam 1". -/
theorem infer_type_first_match_rules_witness :
    inferType { canvas_assignment_id := "7", name := "Practice Exam 1"
                due_at := none, points_possible := 0, html_url := none
                submission := none, submission_types := [] } =
      (firstMatch typeRules ((jsOr "Practice Exam 1" "").toLower)).getD
        "Homework" :=
  (infer_type_first_match_rules _ rfl).1

/-- C9: `ensureCoursePages` joins destination course documents solely on the
immutable Canvas Course ID property stored on the document, never on the
display name: an existing document is reused as-is (its mapped id is
returned and no write is issued for it), a create — the only kind of write
the resolver issues — happens exactly for the courses whose identity is
absent from the live listing and carries the canonical name as initial
value, and renaming destination documents (same ids and identity
properties, different names) leaves the resolver's entire output
unchanged. -/
theorem course_resolver_joins_on_identity (coursesDatabaseId : String)
    (pages : List CoursePage) (courses : List Course)
    (newPageId : String → String) (cache0 : String → Option String) :
    (ensureCoursePages coursesDatabaseId pages courses newPageId cache0).creates =
      (courses.filter
        (fun c => (coursePageIndex pages c.canvas_course_id).isNone)).map
        (fun c => { coursesDatabaseId := coursesDatabaseId, name := c.name
                    canvasCourseId := c.canvas_course_id
                    newPageId := newPageId c.canvas_course_id }) ∧
    (∀ c ∈ courses, ∀ pid,
      coursePageIndex pages c.canvas_course_id = some pid →
      (ensureCoursePages coursesDatabaseId pages courses newPageId
        cache0).resultMap c.canvas_course_id = some pid) ∧
    (∀ pages' : List CoursePage,
      pages'.map (fun p => (p.id, p.canvasCourseIdText)) =
        pages.map (fun p => (p.id, p.canvasCourseIdText)) →
      ensureCoursePages coursesDatabaseId pages' courses newPageId cache0 =
        ensureCoursePages coursesDatabaseId pages courses newPageId cache0) := by
  refine ⟨?_, ?_, ?_⟩
  · unfold ensureCoursePages
    rw [ensureFold_creates]
    rfl
  · intro c hc pid hpid
    exact ensureFold_resultMap_of_mem _ _ _ _ _ _ _ hc hpid
  · intro pages' hp
    exact ensureCoursePages_congr _ _ _ _ _ _ hp

/-- C9 (witness): renaming the one destination course document does not
change the resolver's output. -/
theorem course_resolver_joins_on_identity_witness :
    ensureCoursePages "cdb"
        [{ id := "p1", name := "Renamed by user", canvasCourseIdText := some "1" }]
        [sampleCourse] (fun c => "new-" ++ c) emptyStrMap =
      ensureCoursePages "cdb"
        [{ id := "p1", name := "Algebra", canvasCourseIdText := some "1" }]
        [sampleCourse] (fun c => "new-" ++ c) emptyStrMap :=
  (course_resolver_joins_on_identity "cdb"
    [{ id := "p1", name := "Algebra", canvasCourseIdText := some "1" }]
    [sampleCourse] (fun c => "new-" ++ c) emptyStrMap).2.2
    [{ id := "p1", name := "Renamed by user", canvasCourseIdText := some "1" }]
    rfl

/-- C10: the content-script Canvas pipeline and the token-based background
pipeline agree: the two submission-status mappers coincide on every raw
submission (null ⇒ unsubmitted; missing takes precedence over late, which
takes precedence over graded, then submitted), and the two Link-header
next-page parsers coincide on every header. -/
theorem content_background_pipelines_equivalent :
    (∀ sub, mapSubmission sub = mapSubmissionBackground sub) ∧
    (∀ header, parseLinkNext header = parseLinkHeaderNext header) ∧
    mapSubmission none = { status := "unsubmitted", submitted_at := none } ∧
    (∀ sub : RawSubmission, mapSubmission (some sub) =
      { status :=
          if sub.missing then "missing"
          else if sub.late then "late"
          else if sub.workflow_state = "graded" then "graded"
          else if sub.workflow_state = "submitted" then "submitted"
          else "unsubmitted"
        submitted_at := jsOrNull sub.submitted_at }) := by
  refine ⟨?_, ?_, rfl, ?_⟩
  · intro sub
    cases sub <;> rfl
  · intro header
    cases header <;> rfl
  · intro sub
    rfl

/-- C4: a run invoked while less than `SYNC_DEBOUNCE_MS` (5 minutes) of
wall-clock time have elapsed since the recorded start of the last
successful run returns the skipped result immediately — no destination
calls, no queries, and the persisted state and gate timestamp are left
untouched; a manual/forced invocation resets the gate to 0 first, so (for
any realistic clock value at least the threshold) it is never the debounce
result, regardless of how recently the previous run started. -/
theorem debounce_gate_skips_and_manual_reset_runs (lastSyncTime : Nat)
    (storage : Storage) (env : BgEnv) (syncData : SyncData) :
    (env.now - lastSyncTime < SYNC_DEBOUNCE_MS →
      handleNotionSync lastSyncTime storage env syncData =
        { result := SyncResult.skippedDebounce, upsertCalls := []
          courseCreates := [], queriedCourses := false, queriedPages := false
          failed := 0, newStorage := storage
          newLastSyncTime := lastSyncTime }) ∧
    (SYNC_DEBOUNCE_MS ≤ env.now →
      (handleNotionSync manualSyncGateReset storage env syncData).result ≠
        SyncResult.skippedDebounce) := by
  constructor
  · intro h
    exact handleNotionSync_debounced _ _ _ _ h
  · intro h
    apply handleNotionSync_not_skipped
    simp only [manualSyncGateReset, Nat.sub_zero]
    omega

/-- C4 (witness): a run at clock 0 right after a run recorded at clock 0 is
debounced with no effects; a forced run at the threshold clock is not
debounced. -/
theorem debounce_gate_skips_and_manual_reset_runs_witness :
    handleNotionSync 0 sampleStorage (sampleEnv 0) sampleDistinctSyncData =
      { result := SyncResult.skippedDebounce, upsertCalls := []
        courseCreates := [], queriedCourses := false, queriedPages := false
        failed := 0, newStorage := sampleStorage, newLastSyncTime := 0 } ∧
    (handleNotionSync manualSyncGateReset sampleStorage
        (sampleEnv SYNC_DEBOUNCE_MS) sampleDistinctSyncData).result ≠
      SyncResult.skippedDebounce :=
  ⟨(debounce_gate_skips_and_manual_reset_runs 0 sampleStorage (sampleEnv 0)
      sampleDistinctSyncData).1 (by decide),
   (debounce_gate_skips_and_manual_reset_runs 0 sampleStorage
      (sampleEnv SYNC_DEBOUNCE_MS) sampleDistinctSyncData).2 (by decide)⟩

/-- C7 (counterexample): a debounced invocation returns
`{ skipped: true, reason: "debounced" }`, which carries neither an `error`
string nor a summary with counts — so the claim that every invocation
returns one of those two shapes is false. -/
theorem sync_return_shape_counterexample :
    ¬((handleNotionSync 0 sampleStorage (sampleEnv 0)
        sampleDistinctSyncData).result.isError = true ∨
      (handleNotionSync 0 sampleStorage (sampleEnv 0)
        sampleDistinctSyncData).result.isSummary = true) := by
  decide

/-- C7 (amended): every invocation returns an `error` string (fatal path), a
summary with counts (success or partial-success path), or — exactly on
invocations stopped by the debounce gate — the skipped marker; there is no
fourth shape. -/
theorem sync_return_value_shapes (lastSyncTime : Nat) (storage : Storage)
    (env : BgEnv) (syncData : SyncData) :
    ((handleNotionSync lastSyncTime storage env syncData).result.isError = true ∨
      (handleNotionSync lastSyncTime storage env
        syncData).result.isSummary = true) ∨
    ((handleNotionSync lastSyncTime storage env syncData).result =
        SyncResult.skippedDebounce ∧
      env.now - lastSyncTime < SYNC_DEBOUNCE_MS) := by
  by_cases h : env.now - lastSyncTime < SYNC_DEBOUNCE_MS
  · right
    rw [handleNotionSync_debounced _ _ _ _ h]
    exact ⟨rfl, h⟩
  · left
    unfold handleNotionSync
    rw [if_neg h]
    rcases storage.notionToken with _ | nt <;>
      rcases storage.databaseId with _ | db
    all_goals simp [SyncResult.isError, SyncResult.isSummary]
    all_goals split_ifs <;> simp [SyncResult.isError, SyncResult.isSummary]

theorem upsert_counts_partition (idx : String → Option String)
    (fails : String → Bool) (l : List DiffItem) :
    l.countP (fun it => (idx it.canvasId).isNone && !fails it.canvasId) +
      l.countP (fun it => (idx it.canvasId).isSome && !fails it.canvasId) +
      l.countP (fun it => fails it.canvasId) = l.length := by
  induction l with
  | nil => simp
  | cons x xs ih =>
    by_cases hf : fails x.canvasId <;> cases hc : idx x.canvasId <;>
      simp [List.countP_cons, hf, hc] <;> omega

theorem mem_upsertDecision_createPage (db : String)
    (idx cpm : String → Option String) (j : DiffItem) (dbid : String)
    (props : NotionProps)
    (h : upsertDecision db idx cpm j = UpsertCall.createPage dbid props) :
    idx j.canvasId = none ∧ props.canvasId = j.canvasId := by
  cases hc : idx j.canvasId with
  | some pid => simp [upsertDecision, hc] at h
  | none =>
    simp only [upsertDecision, hc] at h
    obtain ⟨hdb, hprops⟩ := UpsertCall.createPage.inj h
    refine ⟨rfl, ?_⟩
    rw [← hprops]
    rfl

/-- C2: for every item the upsert loop processes — whether the diff
classified it as a create or as an update — the issued call is an update
against the mapped document id exactly when the item's identity key is
present in the destination page index built from the live listing, and a
create only when the key is absent; no create call is ever issued for a key
the index maps.  With an empty stored cache every fresh record is classified
`toCreate`, so a record whose key already exists in the destination still
receives an update, never a duplicate create. -/
theorem upsert_resolves_against_destination_index (lastSyncTime : Nat)
    (storage : Storage) (env : BgEnv) (syncData : SyncData) (nt db : String)
    (hgate : ¬(env.now - lastSyncTime < SYNC_DEBOUNCE_MS))
    (htok : storage.notionToken = some nt) (htok' : nt ≠ "")
    (hdb : storage.databaseId = some db) (hdb' : db ≠ "")
    (hne : (diffAssignments syncData
        (storage.syncCache.getD emptySyncCache)).toCreate ++
      (diffAssignments syncData
        (storage.syncCache.getD emptySyncCache)).toUpdate ≠ []) :
    (handleNotionSync lastSyncTime storage env syncData).upsertCalls =
      ((diffAssignments syncData
          (storage.syncCache.getD emptySyncCache)).toCreate ++
        (diffAssignments syncData
          (storage.syncCache.getD emptySyncCache)).toUpdate).map
        (upsertDecision db (pageIndex env.existingPages)
          (resolveCoursePages storage.coursesDatabaseId env syncData.courses
            storage.coursePageCache).1.resultMap) ∧
    (∀ it ∈ (diffAssignments syncData
          (storage.syncCache.getD emptySyncCache)).toCreate ++
        (diffAssignments syncData
          (storage.syncCache.getD emptySyncCache)).toUpdate,
      (∀ pid, pageIndex env.existingPages it.canvasId = some pid →
        UpsertCall.updatePage pid
            (buildNotionProperties it.course it.assignment it.canvasId
              ((resolveCoursePages storage.coursesDatabaseId env
                syncData.courses storage.coursePageCache).1.resultMap
                it.course.canvas_course_id)) ∈
          (handleNotionSync lastSyncTime storage env syncData).upsertCalls ∧
        (∀ dbid props, UpsertCall.createPage dbid props ∈
            (handleNotionSync lastSyncTime storage env syncData).upsertCalls →
          props.canvasId ≠ it.canvasId)) ∧
      (pageIndex env.existingPages it.canvasId = none →
        UpsertCall.createPage db
            (buildNotionProperties it.course it.assignment it.canvasId
              ((resolveCoursePages storage.coursesDatabaseId env
                syncData.courses storage.coursePageCache).1.resultMap
                it.course.canvas_course_id)) ∈
          (handleNotionSync lastSyncTime storage env syncData).upsertCalls)) ∧
    (storage.syncCache = none →
      (diffAssignments syncData
          (storage.syncCache.getD emptySyncCache)).toCreate =
        diffItems syncData ∧
      (diffAssignments syncData
          (storage.syncCache.getD emptySyncCache)).toUpdate = [] ∧
      (diffAssignments syncData
          (storage.syncCache.getD emptySyncCache)).unchanged = []) := by
  have hcfg : ¬(nt = "" ∨ db = "") := by
    intro hor
    rcases hor with h | h
    · exact htok' h
    · exact hdb' h
  have hfull : ¬((diffAssignments syncData
      (storage.syncCache.getD emptySyncCache)).toCreate.length = 0 ∧
      (diffAssignments syncData
        (storage.syncCache.getD emptySyncCache)).toUpdate.length = 0) := by
    intro ⟨h1, h2⟩
    apply hne
    rw [List.length_eq_zero] at h1 h2
    rw [h1, h2]
    rfl
  have e := handleNotionSync_full lastSyncTime storage env syncData nt db
    hgate htok hdb hcfg hfull
  have hcalls : (handleNotionSync lastSyncTime storage env
      syncData).upsertCalls =
      ((diffAssignments syncData
          (storage.syncCache.getD emptySyncCache)).toCreate ++
        (diffAssignments syncData
          (storage.syncCache.getD emptySyncCache)).toUpdate).map
        (upsertDecision db (pageIndex env.existingPages)
          (resolveCoursePages storage.coursesDatabaseId env syncData.courses
            storage.coursePageCache).1.resultMap) := by
    rw [e, processUpserts_eq]
  refine ⟨hcalls, ?_, ?_⟩
  · intro it hit
    constructor
    · intro pid hpid
      constructor
      · rw [hcalls]
        have hdec : upsertDecision db (pageIndex env.existingPages)
            (resolveCoursePages storage.coursesDatabaseId env syncData.courses
              storage.coursePageCache).1.resultMap it =
            UpsertCall.updatePage pid
              (buildNotionProperties it.course it.assignment it.canvasId
                ((resolveCoursePages storage.coursesDatabaseId env
                  syncData.courses storage.coursePageCache).1.resultMap
                  it.course.canvas_course_id)) := by
          simp [upsertDecision, hpid]
        rw [← hdec]
        exact List.mem_map_of_mem _ hit
      · intro dbid props hmem hcid
        rw [hcalls] at hmem
        obtain ⟨j, hj, hdecj⟩ := List.mem_map.mp hmem
        obtain ⟨hnone, hpc⟩ := mem_upsertDecision_createPage _ _ _ _ _ _ hdecj
        rw [hcid] at hpc
        rw [← hpc] at hnone
        rw [hpid] at hnone
        cases hnone
    · intro hnone
      rw [hcalls]
      have hdec : upsertDecision db (pageIndex env.existingPages)
          (resolveCoursePages storage.coursesDatabaseId env syncData.courses
            storage.coursePageCache).1.resultMap it =
          UpsertCall.createPage db
            (buildNotionProperties it.course it.assignment it.canvasId
              ((resolveCoursePages storage.coursesDatabaseId env
                syncData.courses storage.coursePageCache).1.resultMap
                it.course.canvas_course_id)) := by
        simp [upsertDecision, hnone]
      rw [← hdec]
      exact List.mem_map_of_mem _ hit
  · intro hnone
    have hcache : storage.syncCache.getD emptySyncCache = emptySyncCache := by
      rw [hnone]
      rfl
    rw [hcache, diffAssignments_eq]
    refine ⟨?_, ?_, ?_⟩
    · apply List.filter_eq_self.mpr
      intro it _
      simp [isNewForCache, emptySyncCache]
    · apply List.filter_eq_nil_iff.mpr
      intro it _
      simp [isChangedForCache, emptySyncCache]
    · have : (diffItems syncData).filter
          (isUnchangedForCache emptySyncCache) = [] := by
        apply List.filter_eq_nil_iff.mpr
        intro it _
        simp [isUnchangedForCache, emptySyncCache]
      rw [this]
      rfl

/-- C2 (witness): with the empty stored cache and a destination listing that
already maps "1:100", the issued calls are exactly the per-item decisions —
an update for the existing key even though the diff classified it as a
create. -/
theorem upsert_resolves_against_destination_index_witness :
    (handleNotionSync 0 sampleStorage sampleEnvDest
        sampleDistinctSyncData).upsertCalls =
      ((diffAssignments sampleDistinctSyncData
          (sampleStorage.syncCache.getD emptySyncCache)).toCreate ++
        (diffAssignments sampleDistinctSyncData
          (sampleStorage.syncCache.getD emptySyncCache)).toUpdate).map
        (upsertDecision "db" (pageIndex sampleEnvDest.existingPages)
          (resolveCoursePages sampleStorage.coursesDatabaseId sampleEnvDest
            sampleDistinctSyncData.courses
            sampleStorage.coursePageCache).1.resultMap) :=
  (upsert_resolves_against_destination_index 0 sampleStorage sampleEnvDest
    sampleDistinctSyncData "tok" "db" (by decide) rfl (by decide) rfl
    (by decide) (by decide)).1

/-- C3: on a full-path run in which some per-item destination calls fail,
every failure is caught and counted without aborting: a call is still issued
for every diffed item (in order), the run returns a counts summary with
`created + updated + failed` equal to the number of processed items and
`failed` equal to the number of failing items (so `created + updated` drops
exactly by the failures), and the persisted cache is the freshly computed
`buildSyncCache` of the run's payload — it covers every fresh record's key
and does not depend on which calls failed. -/
theorem partial_failures_are_isolated (lastSyncTime : Nat) (storage : Storage)
    (env : BgEnv) (syncData : SyncData) (nt db : String)
    (hgate : ¬(env.now - lastSyncTime < SYNC_DEBOUNCE_MS))
    (htok : storage.notionToken = some nt) (htok' : nt ≠ "")
    (hdb : storage.databaseId = some db) (hdb' : db ≠ "")
    (hfail : ∃ it ∈ (diffAssignments syncData
        (storage.syncCache.getD emptySyncCache)).toCreate ++
      (diffAssignments syncData
        (storage.syncCache.getD emptySyncCache)).toUpdate,
      env.upsertFails it.canvasId = true) :
    (handleNotionSync lastSyncTime storage env syncData).upsertCalls.length =
      ((diffAssignments syncData
          (storage.syncCache.getD emptySyncCache)).toCreate ++
        (diffAssignments syncData
          (storage.syncCache.getD emptySyncCache)).toUpdate).length ∧
    (∃ s, (handleNotionSync lastSyncTime storage env syncData).result =
        SyncResult.summary s ∧
      s.created + s.updated +
          (handleNotionSync lastSyncTime storage env syncData).failed =
        ((diffAssignments syncData
            (storage.syncCache.getD emptySyncCache)).toCreate ++
          (diffAssignments syncData
            (storage.syncCache.getD emptySyncCache)).toUpdate).length ∧
      s.skipped = (diffAssignments syncData
        (storage.syncCache.getD emptySyncCache)).unchanged.length ∧
      s.courses = syncData.courses.length) ∧
    (handleNotionSync lastSyncTime storage env syncData).failed =
      ((diffAssignments syncData
          (storage.syncCache.getD emptySyncCache)).toCreate ++
        (diffAssignments syncData
          (storage.syncCache.getD emptySyncCache)).toUpdate).countP
        (fun it => env.upsertFails it.canvasId) ∧
    0 < (handleNotionSync lastSyncTime storage env syncData).failed ∧
    (handleNotionSync lastSyncTime storage env syncData).newStorage.syncCache =
      some (buildSyncCache syncData) ∧
    (∀ it ∈ diffItems syncData,
      ((buildSyncCache syncData) it.canvasId).isSome = true) ∧
    (∀ fails' : String → Bool,
      (handleNotionSync lastSyncTime storage
          { env with upsertFails := fails' } syncData).newStorage.syncCache =
        some (buildSyncCache syncData)) := by
  have hcfg : ¬(nt = "" ∨ db = "") := by
    intro hor
    rcases hor with h | h
    · exact htok' h
    · exact hdb' h
  have hfull : ¬((diffAssignments syncData
      (storage.syncCache.getD emptySyncCache)).toCreate.length = 0 ∧
      (diffAssignments syncData
        (storage.syncCache.getD emptySyncCache)).toUpdate.length = 0) := by
    intro ⟨h1, h2⟩
    obtain ⟨it, hit, -⟩ := hfail
    rw [List.length_eq_zero] at h1 h2
    rw [h1, h2] at hit
    cases hit
  have e := handleNotionSync_full lastSyncTime storage env syncData nt db
    hgate htok hdb hcfg hfull
  refine ⟨?_, ?_, ?_, ?_, ?_, ?_, ?_⟩
  · rw [e, processUpserts_eq]
    simp
  · rw [e, processUpserts_eq]
    refine ⟨_, rfl, ?_, rfl, rfl⟩
    simp only
    exact upsert_counts_partition _ _ _
  · rw [e, processUpserts_eq]
  · rw [e, processUpserts_eq]
    simp only
    rw [List.countP_pos_iff]
    exact hfail
  · rw [e]
  · intro it hit
    exact buildSyncCache_isSome_of_mem syncData it hit
  · intro fails'
    have e' := handleNotionSync_full lastSyncTime storage
      { env with upsertFails := fails' } syncData nt db hgate htok hdb hcfg
      hfull
    rw [e']

/-- C3 (witness): with a run whose call for "1:100" throws, the failure is
counted exactly as the number of failing items. -/
theorem partial_failures_are_isolated_witness :
    (handleNotionSync 0 sampleStorage sampleEnvFail
        sampleDistinctSyncData).failed =
      ((diffAssignments sampleDistinctSyncData
          (sampleStorage.syncCache.getD emptySyncCache)).toCreate ++
        (diffAssignments sampleDistinctSyncData
          (sampleStorage.syncCache.getD emptySyncCache)).toUpdate).countP
        (fun it => sampleEnvFail.upsertFails it.canvasId) :=
  (partial_failures_are_isolated 0 sampleStorage sampleEnvFail
    sampleDistinctSyncData "tok" "db" (by decide) rfl (by decide) rfl
    (by decide) (by decide)).2.2.1

end CNSync
